import Mathlib

/-!
# Verification of the RAG chatbot frontend and pipeline sequencing logic

Shallow embedding of the state-bearing logic of the `rag_chatbot_nextjs`
repository: the `VectorizationStatus` progress record and the React handlers of
`ChatbotApp` (frontend/project), plus the backend pipeline runner and chat
responder described in the specification (the Flask backend source is not part
of the repository snapshot, so those two are modelled from the spec).

JavaScript strings are Lean `String`s, JS `Date.now()` timestamps are `Nat`s,
and the numeric progress-bar value (a JS float computed from two integers) is
modelled as a rational number.
-/

set_option autoImplicit false

namespace RagChatbot

/-- The `VectorizationStatus` interface of the frontend
(frontend/project, lines 52-59). -/
structure VectorizationStatus where
  in_progress : Bool
  completed : Bool
  total_urls : Nat
  processed_urls : Nat
  successful_docs : Nat
  errors : List String
  deriving Repr, DecidableEq

/-- A chat message as held in UI memory (`Message` interface, lines 45-50);
`Date` timestamps are modelled as `Nat`. -/
structure Message where
  id : String
  text : String
  sender : Bool  -- `true` = user, `false` = bot
  timestamp : Nat
  deriving Repr, DecidableEq

/-- JavaScript's `String.prototype.trim()`: strip whitespace from both ends of
the string. -/
def jsTrim (s : String) : String :=
  String.mk
    (((s.data.dropWhile Char.isWhitespace).reverse.dropWhile Char.isWhitespace).reverse)

/-! ## URL list handlers (frontend `addUrl` / `removeUrl`) -/

/-- `addUrl` (lines 309-314): if the trimmed input is a non-empty string not
already in the list, append it and clear the input field; otherwise leave both
untouched.  Returns the new `(urls, newUrl)` state pair. -/
def addUrl (urls : List String) (newUrl : String) : List String × String :=
  if jsTrim newUrl ≠ "" ∧ urls.contains (jsTrim newUrl) = false then
    (urls ++ [jsTrim newUrl], "")
  else
    (urls, newUrl)

/-- `removeUrl` (lines 316-318): `urls.filter((_, i) => i !== index)`, keep
every element whose position differs from `index`. -/
def removeUrl (urls : List String) (index : Nat) : List String :=
  ((urls.enum.filter fun p => p.1 ≠ index).map Prod.snd)

theorem removeUrl_sublist_aux (l : List String) :
    ∀ (n index : Nat),
      (((l.enumFrom n).filter fun p => p.1 ≠ index).map Prod.snd).Sublist l := by
  induction l with
  | nil => intro n index; simp
  | cons a l ih =>
    intro n index
    by_cases h : n = index
    · simpa [List.enumFrom, List.filter, h] using (ih (n + 1) index).cons a
    · simpa [List.enumFrom, List.filter, h] using (ih (n + 1) index).cons₂ a

theorem removeUrl_sublist (urls : List String) (index : Nat) :
    (removeUrl urls index).Sublist urls := by
  simpa [removeUrl, List.enum] using removeUrl_sublist_aux urls 0 index

/-! ## Progress-bar value (frontend `ChatbotApp`, lines 707-710) -/

/-- The value passed to the `Progress` component:
`total_urls > 0 ? (processed_urls / total_urls) * 100 : 0`, with the JS float
division modelled over `ℚ`. -/
def progressValue (s : VectorizationStatus) : ℚ :=
  if s.total_urls > 0 then
    ((s.processed_urls : ℚ) / (s.total_urls : ℚ)) * 100
  else
    0

/-! ## Chat state and `sendMessage` (frontend, lines 374-430) -/

/-- The pieces of React state touched by `sendMessage`. -/
structure ChatState where
  messages : List Message
  currentMessage : String
  isLoading : Bool
  deriving Repr, DecidableEq

/-- Outcome of the `fetch` to `POST /api/chat` as observed by `sendMessage`:
an OK response carrying a `response` JSON field, a non-OK response carrying an
`error` JSON field, or a thrown network error. -/
inductive FetchOutcome where
  | ok (response : String)
  | httpError (error : String)
  | networkError
  deriving Repr, DecidableEq

/-- `sendMessage` (lines 374-430).  Besides the React state it takes the
backend-connection flag, the current timestamp (`Date.now()`) and the outcome
of the single `fetch` call; it returns the new state together with the list of
request bodies sent over the network during the call (one entry per `fetch`
of `/api/chat`). -/
def sendMessage (backendConnected : Bool) (now : Nat) (outcome : FetchOutcome)
    (s : ChatState) : ChatState × List String :=
  if jsTrim s.currentMessage = "" ∨ backendConnected = false then
    (s, [])
  else
    let userMessage : Message :=
      { id := toString now, text := s.currentMessage, sender := true, timestamp := now }
    let s1 : ChatState :=
      { messages := s.messages ++ [userMessage], currentMessage := "", isLoading := true }
    let s2 : ChatState :=
      match outcome with
      | .ok response =>
          { s1 with messages := s1.messages ++
              [{ id := toString (now + 1), text := response,
                 sender := false, timestamp := now }] }
      | .httpError error =>
          { s1 with messages := s1.messages ++
              [{ id := toString (now + 1),
                 text := "Sorry, I encountered an error: " ++ error,
                 sender := false, timestamp := now }] }
      | .networkError =>
          { s1 with messages := s1.messages ++
              [{ id := toString (now + 1),
                 text := "Sorry, I couldn't process your message. Please check if the backend server is running.",
                 sender := false, timestamp := now }] }
    ({ s2 with isLoading := false }, [userMessage.text])

/-! ## Pipeline runner (backend)

The Flask backend source is not part of the repository snapshot; only the
frontend, the deployment descriptors and the README are.  The pipeline runner
is therefore modelled from the spec (section 4.1). -/

/-- Outcome of the crawl → embed → upsert sequence for one URL: success with
some number of indexed documents, or a failure described by an error string. -/
inductive UrlResult where
  | success (docs : Nat)
  | failure (msg : String)
  deriving Repr, DecidableEq

/-- Modelled from the spec: the progress record at the start of a pipeline run
over `n` URLs — the run is in progress, nothing processed yet, no errors
(spec section 3, section 4.1; the backend source is missing from the
snapshot). -/
def initStatus (n : Nat) : VectorizationStatus :=
  { in_progress := true, completed := false, total_urls := n,
    processed_urls := 0, successful_docs := 0, errors := [] }

/-- Modelled from the spec: one pipeline step — "update the progress record
after every URL.  On a per-URL failure, append an error string to the progress
record and continue to the next URL — no retry, no backoff" (spec section 4.1;
the backend source is missing from the snapshot). -/
def processUrl (s : VectorizationStatus) (r : UrlResult) : VectorizationStatus :=
  match r with
  | .success docs =>
      { s with processed_urls := s.processed_urls + 1,
               successful_docs := s.successful_docs + docs }
  | .failure msg =>
      { s with processed_urls := s.processed_urls + 1,
               errors := s.errors ++ [msg] }

/-- Modelled from the spec: "When all URLs are processed, set
`completed = true`, `in_progress = false`" (spec section 4.1; the backend
source is missing from the snapshot). -/
def finishRun (s : VectorizationStatus) : VectorizationStatus :=
  { s with completed := true, in_progress := false }

/-- The progress record after the first `k` URLs of a run whose per-URL
outcomes are `results` have been processed. -/
def statusAfter (results : List UrlResult) (k : Nat) : VectorizationStatus :=
  (results.take k).foldl processUrl (initStatus results.length)

/-- Modelled from the spec: a whole pipeline run — sequentially process every
URL, then mark the run completed (spec section 4.1; the backend source is
missing from the snapshot). -/
def runPipeline (results : List UrlResult) : VectorizationStatus :=
  finishRun (results.foldl processUrl (initStatus results.length))

/-! ## Chat responder (backend)

Also modelled from the spec (section 4.2), the backend source being absent
from the snapshot. -/

/-- Outcome of a call to an external managed service. -/
inductive CallResult (α : Type) where
  | ok (value : α)
  | err (msg : String)
  deriving Repr, DecidableEq

/-- Shape of the HTTP reply of `POST /api/chat`: an OK reply with a `response`
JSON field, or an error reply with an `error` JSON field. -/
inductive ChatApiResult where
  | success (response : String)
  | failure (error : String)
  deriving Repr, DecidableEq

/-- Modelled from the spec: prompt assembly — "concatenate [the passages] into
a context block, and send a single completion request combining context and
question" (spec section 4.2; the backend source is missing from the
snapshot). -/
def assemblePrompt (passages : List String) (question : String) : String :=
  String.intercalate "\n" passages ++ "\n\nQuestion: " ++ question

/-- Modelled from the spec: the chat responder behind `POST /api/chat` —
embed the question, query the vector index for the nearest passages, send one
completion request, return the model's text verbatim; if the vector index or
the completion API errors, surface the failure as a plain error string with no
retry (spec section 4.2; the backend source is missing from the snapshot).
The outcomes of the two external calls are inputs; the result also carries the
number of vector-index queries and of completion calls performed. -/
def chatResponder (question : String) (queryRes : CallResult (List String))
    (completion : String → CallResult String) : ChatApiResult × Nat × Nat :=
  match queryRes with
  | .err e => (.failure e, 1, 0)
  | .ok passages =>
      match completion (assemblePrompt passages question) with
      | .err e => (.failure e, 1, 1)
      | .ok text => (.success text, 1, 1)

/-- The reply of `POST /api/chat` as the frontend `fetch` observes it. -/
def ChatApiResult.toFetchOutcome : ChatApiResult → FetchOutcome
  | .success response => .ok response
  | .failure error => .httpError error

/-! ## Vectorization polling timer (frontend, lines 96, 104-110, 180-186) -/

/-- The browser's interval timers together with the component's
`vectorizationIntervalRef`: each active interval is an `(id, period)` pair,
`nextId` allocates fresh timer ids. -/
structure TimerState where
  nextId : Nat
  active : List (Nat × Nat)
  intervalRef : Option Nat
  deriving Repr, DecidableEq

/-- `clearInterval(id)`: deactivate the interval with the given id. -/
def clearIntervalTimer (ts : TimerState) (id : Nat) : TimerState :=
  { ts with active := ts.active.filter fun p => p.1 ≠ id }

/-- `setInterval(f, period)`: activate a fresh interval, returning its id. -/
def setIntervalTimer (ts : TimerState) (period : Nat) : TimerState × Nat :=
  ({ ts with active := ts.active ++ [(ts.nextId, period)], nextId := ts.nextId + 1 },
   ts.nextId)

/-- `startVectorizationPolling` (lines 180-186): clear the interval held in
`vectorizationIntervalRef` if any, then install a 2000 ms interval running
`fetchVectorizationStatus` and store its id in the ref. -/
def startVectorizationPolling (ts : TimerState) : TimerState :=
  let ts1 :=
    match ts.intervalRef with
    | some id => clearIntervalTimer ts id
    | none => ts
  let result := setIntervalTimer ts1 2000
  { result.1 with intervalRef := some result.2 }

/-- The `clearInterval` + ref-reset step shared by `fetchVectorizationStatus`
(lines 150-153), `handleContinueToChat` (lines 189-192), the unmount cleanup
(lines 104-110) and `handleBackToWelcome` (lines 438-441). -/
def stopVectorizationPolling (ts : TimerState) : TimerState :=
  match ts.intervalRef with
  | some id => { clearIntervalTimer ts id with intervalRef := none }
  | none => ts

/-- Ref/timer coherence: `vectorizationIntervalRef` tracks exactly the active
intervals — none, or precisely one 2000 ms interval with the ref's id. -/
def TimerInv (ts : TimerState) : Prop :=
  (ts.intervalRef = none ∧ ts.active = []) ∨
    (∃ i, ts.intervalRef = some i ∧ ts.active = [(i, 2000)])

/-! ## Helper lemmas about pipeline folds -/

theorem foldl_processUrl_processed (l : List UrlResult) :
    ∀ s : VectorizationStatus,
      (l.foldl processUrl s).processed_urls = s.processed_urls + l.length := by
  induction l with
  | nil => intro s; simp
  | cons r l ih =>
    intro s
    cases r <;> simp [processUrl, ih] <;> omega

theorem foldl_processUrl_total (l : List UrlResult) :
    ∀ s : VectorizationStatus, (l.foldl processUrl s).total_urls = s.total_urls := by
  induction l with
  | nil => intro s; simp
  | cons r l ih => intro s; cases r <;> simp [processUrl, ih]

theorem foldl_processUrl_completed (l : List UrlResult) :
    ∀ s : VectorizationStatus, (l.foldl processUrl s).completed = s.completed := by
  induction l with
  | nil => intro s; simp
  | cons r l ih => intro s; cases r <;> simp [processUrl, ih]

theorem foldl_processUrl_in_progress (l : List UrlResult) :
    ∀ s : VectorizationStatus, (l.foldl processUrl s).in_progress = s.in_progress := by
  induction l with
  | nil => intro s; simp
  | cons r l ih => intro s; cases r <;> simp [processUrl, ih]

/-! ## Claim theorems -/

/-- C1: for every reachable state of the progress record — the state after any
number `k` of pipeline steps, and the state after the final completion step —
the processed-URL counter never exceeds the total-URL counter. -/
theorem processed_le_total (results : List UrlResult) (k : Nat) :
    (statusAfter results k).processed_urls ≤ (statusAfter results k).total_urls ∧
      (runPipeline results).processed_urls ≤ (runPipeline results).total_urls := by
  constructor
  · rw [statusAfter, foldl_processUrl_processed, foldl_processUrl_total]
    simp [initStatus]
  · rw [runPipeline, finishRun]
    rw [foldl_processUrl_processed, foldl_processUrl_total]
    simp [initStatus]

/-- C2: for every reachable state of the progress record, `completed = true`
implies `in_progress = false`. -/
theorem completed_not_in_progress (results : List UrlResult) (k : Nat) :
    ((statusAfter results k).completed = true →
        (statusAfter results k).in_progress = false) ∧
      ((runPipeline results).completed = true →
        (runPipeline results).in_progress = false) := by
  constructor
  · intro h
    rw [statusAfter, foldl_processUrl_completed] at h
    simp [initStatus] at h
  · intro _
    rw [runPipeline, finishRun]

/-- C2 witness: the concrete run `[success 1]` ends with `completed = true`,
whence `in_progress = false`. -/
theorem completed_not_in_progress_witness :
    (runPipeline [UrlResult.success 1]).completed = true ∧
      (runPipeline [UrlResult.success 1]).in_progress = false :=
  ⟨rfl, (completed_not_in_progress [UrlResult.success 1] 0).2 rfl⟩

/-- C3: when the URL at position `pre.length` fails, the corresponding step
appends exactly one error string, increments the processed counter by exactly
one (no retry), and the run still processes every URL of the list, including
those after the failing one. -/
theorem failure_one_error_run_continues (pre post : List UrlResult) (msg : String) :
    (statusAfter (pre ++ UrlResult.failure msg :: post) (pre.length + 1)).errors =
        (statusAfter (pre ++ UrlResult.failure msg :: post) pre.length).errors ++ [msg] ∧
      (statusAfter (pre ++ UrlResult.failure msg :: post) (pre.length + 1)).processed_urls =
        (statusAfter (pre ++ UrlResult.failure msg :: post) pre.length).processed_urls + 1 ∧
      (runPipeline (pre ++ UrlResult.failure msg :: post)).processed_urls =
        (pre ++ UrlResult.failure msg :: post).length := by
  have htake : (pre ++ UrlResult.failure msg :: post).take pre.length = pre := by
    simp
  have htake1 : (pre ++ UrlResult.failure msg :: post).take (pre.length + 1) =
      pre ++ [UrlResult.failure msg] := by
    rw [List.take_append_eq_append_take]
    simp [List.take_of_length_le (Nat.le_succ pre.length)]
  refine ⟨?_, ?_, ?_⟩
  · rw [statusAfter, statusAfter, htake, htake1, List.foldl_append]
    simp [processUrl]
  · rw [statusAfter, statusAfter, htake, htake1, List.foldl_append]
    simp [processUrl]
  · rw [runPipeline, finishRun]
    rw [foldl_processUrl_processed]
    simp [initStatus]

/-- C4: after a pipeline run over a non-empty URL list, every URL has been
processed and the record reads `completed = true`, `in_progress = false`. -/
theorem runPipeline_completes (results : List UrlResult) (_h : results ≠ []) :
    (runPipeline results).processed_urls = (runPipeline results).total_urls ∧
      (runPipeline results).completed = true ∧
      (runPipeline results).in_progress = false := by
  refine ⟨?_, rfl, rfl⟩
  rw [runPipeline, finishRun]
  rw [foldl_processUrl_processed, foldl_processUrl_total]
  simp [initStatus]

/-- C4 witness: the concrete run `[success 2, failure "x"]`. -/
theorem runPipeline_completes_witness :
    (runPipeline [UrlResult.success 2, UrlResult.failure "x"]).processed_urls =
        (runPipeline [UrlResult.success 2, UrlResult.failure "x"]).total_urls ∧
      (runPipeline [UrlResult.success 2, UrlResult.failure "x"]).completed = true ∧
      (runPipeline [UrlResult.success 2, UrlResult.failure "x"]).in_progress = false :=
  runPipeline_completes [UrlResult.success 2, UrlResult.failure "x"] (by decide)

/-- C5: when the completion call succeeds, the chat responder returns the
model's text verbatim, and the frontend stores that exact string as the bot
message: the new message list is the old one followed by the user message and
a bot message whose text is precisely the completion's text, with nothing
prepended or appended. -/
theorem chat_response_verbatim (question text : String) (passages : List String)
    (completion : String → CallResult String) (s : ChatState) (now : Nat)
    (hc : completion (assemblePrompt passages question) = CallResult.ok text)
    (hs : jsTrim s.currentMessage ≠ "") :
    (chatResponder question (CallResult.ok passages) completion).1 =
        ChatApiResult.success text ∧
      (sendMessage true now
          (chatResponder question (CallResult.ok passages) completion).1.toFetchOutcome
          s).1.messages =
        s.messages ++
          [{ id := toString now, text := s.currentMessage, sender := true,
             timestamp := now },
           { id := toString (now + 1), text := text, sender := false,
             timestamp := now }] := by
  have hr : (chatResponder question (CallResult.ok passages) completion).1 =
      ChatApiResult.success text := by
    simp [chatResponder, hc]
  refine ⟨hr, ?_⟩
  rw [hr]
  simp [sendMessage, hs, ChatApiResult.toFetchOutcome]

/-- C5 witness: a concrete question, passage list and succeeding completion. -/
theorem chat_response_verbatim_witness :
    (chatResponder "q" (CallResult.ok ["p"]) (fun _ => CallResult.ok "ans")).1 =
        ChatApiResult.success "ans" ∧
      (sendMessage true 7
          (chatResponder "q" (CallResult.ok ["p"])
            (fun _ => CallResult.ok "ans")).1.toFetchOutcome
          { messages := [], currentMessage := "hi", isLoading := false }).1.messages =
        [] ++
          [{ id := toString 7, text := "hi", sender := true, timestamp := 7 },
           { id := toString (7 + 1), text := "ans", sender := false, timestamp := 7 }] :=
  chat_response_verbatim "q" "ans" ["p"] (fun _ => CallResult.ok "ans")
    { messages := [], currentMessage := "hi", isLoading := false } 7
    rfl (by decide)

/-- C6: when the vector-index query or the completion call errors, the chat
responder replies with the error string in the `error` JSON field, having made
at most one vector-index query and at most one completion call — the failed
call is never retried. -/
theorem chat_error_surfaced_no_retry (question e : String)
    (completion : String → CallResult String) :
    chatResponder question (CallResult.err e) completion =
        (ChatApiResult.failure e, 1, 0) ∧
      (∀ passages, completion (assemblePrompt passages question) = CallResult.err e →
        chatResponder question (CallResult.ok passages) completion =
          (ChatApiResult.failure e, 1, 1)) := by
  constructor
  · rfl
  · intro passages hc
    simp [chatResponder, hc]

/-- C6 witness: a concrete failing vector-index query, and a concrete failing
completion call after a successful query. -/
theorem chat_error_surfaced_no_retry_witness :
    chatResponder "q" (CallResult.err "index down")
        (fun _ => CallResult.err "llm down") =
        (ChatApiResult.failure "index down", 1, 0) ∧
      chatResponder "q" (CallResult.ok ["p"])
          (fun _ => CallResult.err "llm down") =
        (ChatApiResult.failure "llm down", 1, 1) :=
  ⟨(chat_error_surfaced_no_retry "q" "index down"
      (fun _ => CallResult.err "llm down")).1,
   (chat_error_surfaced_no_retry "q" "llm down"
      (fun _ => CallResult.err "llm down")).2 ["p"] rfl⟩

/-- C7: `addUrl` appends the trimmed input exactly when it is non-empty and not
already present, otherwise it changes nothing; both `addUrl` and `removeUrl`
preserve distinctness of the URL list. -/
theorem url_list_distinct (urls : List String) (newUrl : String) (index : Nat) :
    (jsTrim newUrl ≠ "" → urls.contains (jsTrim newUrl) = false →
        addUrl urls newUrl = (urls ++ [jsTrim newUrl], "")) ∧
      (jsTrim newUrl = "" ∨ urls.contains (jsTrim newUrl) = true →
        addUrl urls newUrl = (urls, newUrl)) ∧
      (urls.Nodup → (addUrl urls newUrl).1.Nodup) ∧
      (urls.Nodup → (removeUrl urls index).Nodup) := by
  refine ⟨?_, ?_, ?_, ?_⟩
  · intro h1 h2
    simp only [addUrl]
    rw [if_pos ⟨h1, h2⟩]
  · intro h
    have hcond : ¬(jsTrim newUrl ≠ "" ∧ urls.contains (jsTrim newUrl) = false) := by
      intro hc
      rcases h with h | h
      · exact hc.1 h
      · rw [h] at hc
        exact Bool.noConfusion hc.2
    simp only [addUrl]
    rw [if_neg hcond]
  · intro hnd
    by_cases hcond : jsTrim newUrl ≠ "" ∧ urls.contains (jsTrim newUrl) = false
    · have hmem : jsTrim newUrl ∉ urls := by
        have h2 := hcond.2
        simpa using h2
      simp only [addUrl, if_pos hcond]
      exact List.Nodup.append hnd (List.nodup_singleton _)
        (List.disjoint_singleton.mpr hmem)
    · simp only [addUrl, if_neg hcond]
      exact hnd
  · intro hnd
    exact List.Nodup.sublist (removeUrl_sublist urls index) hnd

/-- C7 witness: on `["a", "b"]` the fresh input `" c "` is appended trimmed,
the duplicate input `"a"` leaves the list unchanged, and both results as well
as the removal at index 0 are duplicate-free. -/
theorem url_list_distinct_witness :
    addUrl ["a", "b"] " c " = (["a", "b"] ++ [jsTrim " c "], "") ∧
      addUrl ["a", "b"] "a" = (["a", "b"], "a") ∧
      (addUrl ["a", "b"] " c ").1.Nodup ∧
      (removeUrl ["a", "b"] 0).Nodup :=
  ⟨(url_list_distinct ["a", "b"] " c " 0).1 (by decide) (by decide),
   (url_list_distinct ["a", "b"] "a" 0).2.1 (Or.inr (by decide)),
   (url_list_distinct ["a", "b"] " c " 0).2.2.1 (by decide),
   (url_list_distinct ["a", "b"] " c " 0).2.2.2 (by decide)⟩

/-- C8: when the interval ref faithfully tracks the active intervals, a call to
`startVectorizationPolling` clears the previously installed interval (if any)
and leaves exactly one active interval, a fresh one with a 2000 ms period,
whose id the ref now holds — so at most one polling interval is active. -/
theorem startVectorizationPolling_single_interval (ts : TimerState)
    (hinv : TimerInv ts) :
    startVectorizationPolling ts =
        { nextId := ts.nextId + 1, active := [(ts.nextId, 2000)],
          intervalRef := some ts.nextId } ∧
      TimerInv (startVectorizationPolling ts) := by
  have heq : startVectorizationPolling ts =
      { nextId := ts.nextId + 1, active := [(ts.nextId, 2000)],
        intervalRef := some ts.nextId } := by
    rcases hinv with ⟨href, hact⟩ | ⟨i, href, hact⟩
    · simp [startVectorizationPolling, setIntervalTimer, href, hact]
    · simp [startVectorizationPolling, setIntervalTimer, clearIntervalTimer,
        href, hact]
  refine ⟨heq, ?_⟩
  rw [heq]
  exact Or.inr ⟨ts.nextId, rfl, rfl⟩

/-- C8 witness: a state with one stale 2000 ms interval tracked by the ref. -/
theorem startVectorizationPolling_single_interval_witness :
    startVectorizationPolling
        { nextId := 4, active := [(3, 2000)], intervalRef := some 3 } =
        { nextId := 4 + 1, active := [(4, 2000)], intervalRef := some 4 } ∧
      TimerInv (startVectorizationPolling
        { nextId := 4, active := [(3, 2000)], intervalRef := some 3 }) :=
  startVectorizationPolling_single_interval
    { nextId := 4, active := [(3, 2000)], intervalRef := some 3 }
    (Or.inr ⟨3, rfl, rfl⟩)

/-- C9: the progress-bar value is total — `(processed / total) * 100` whenever
`total_urls > 0` and exactly `0` when `total_urls = 0`, so the division never
runs with a zero divisor. -/
theorem progressValue_total_cases (s : VectorizationStatus) :
    (0 < s.total_urls →
        progressValue s = ((s.processed_urls : ℚ) / (s.total_urls : ℚ)) * 100) ∧
      (s.total_urls = 0 → progressValue s = 0) := by
  constructor
  · intro h
    simp [progressValue, h]
  · intro h
    simp [progressValue, h]

/-- C9 witness: at `processed_urls = 2`, `total_urls = 4` the bar reads 50. -/
theorem progressValue_total_cases_witness :
    progressValue
        { in_progress := true, completed := false, total_urls := 4,
          processed_urls := 2, successful_docs := 0, errors := [] } = 50 := by
  have h := (progressValue_total_cases
    { in_progress := true, completed := false, total_urls := 4,
      processed_urls := 2, successful_docs := 0, errors := [] }).1 (by decide)
  rw [h]
  norm_num

/-- C10: when the trimmed chat input is empty or the backend is not connected,
`sendMessage` is a no-op — the state is returned unchanged and no request is
sent. -/
theorem sendMessage_guard (connected : Bool) (now : Nat) (outcome : FetchOutcome)
    (s : ChatState) (h : jsTrim s.currentMessage = "" ∨ connected = false) :
    sendMessage connected now outcome s = (s, []) := by
  simp [sendMessage, h]

/-- C10 witness: whitespace-only input with a connected backend. -/
theorem sendMessage_guard_witness :
    sendMessage true 3 FetchOutcome.networkError
        { messages := [], currentMessage := "  ", isLoading := false } =
      ({ messages := [], currentMessage := "  ", isLoading := false }, []) :=
  sendMessage_guard true 3 FetchOutcome.networkError
    { messages := [], currentMessage := "  ", isLoading := false }
    (Or.inl (by decide))

end RagChatbot
